import Mathlib

/-!
Shallow embedding of the simulation core of the Agario repository
(agar.py, agar_gym_env.py) and proofs of the specification claims.

Modelling conventions:
- Python floats are modelled by real numbers.
- Random draws (random.uniform(-1, 1)) are passed as explicit parameters.
- In-place mutation is modelled by explicit state passing.
- Rendering (pygame surfaces, camera, fonts) is display-only and omitted;
  the headless branch of Player.move (the branch taken when MAIN_SURFACE
  is None) is the one modelled inside GameState.update, and the directed
  branch (explicit dx, dy arguments with a display) is modelled by
  Ent.move_dir.
-/

namespace Agar

noncomputable section

open scoped Classical

/-- Platform width, PLATFORM_WIDTH = 2500 in agar.py. -/
def PLATFORM_WIDTH : ℝ := 2500

/-- Platform height, PLATFORM_HEIGHT = 2500 in agar.py. -/
def PLATFORM_HEIGHT : ℝ := 2500

/-- Euclidean distance between two points, from getDistance in agar.py:
diffX = abs(a[0]-b[0]); diffY = abs(a[1]-b[1]); ((diffX**2)+(diffY**2))**0.5. -/
def getDistance (a b : ℝ × ℝ) : ℝ :=
  Real.sqrt (|a.1 - b.1| ^ 2 + |a.2 - b.2| ^ 2)

/-- State of a Player or BotPlayer: fields x, y, speed, mass, target_mass,
base_speed from Player.__init__ in agar.py (display metadata omitted). -/
structure Ent where
  x : ℝ
  y : ℝ
  speed : ℝ
  mass : ℝ
  target_mass : ℝ
  base_speed : ℝ

/-- State of a food cell: fields x, y, mass from Cell.__init__ in agar.py. -/
structure Cell where
  x : ℝ
  y : ℝ
  mass : ℝ

/-- Player.get_speed: return self.base_speed / (self.mass ** 0.3). -/
def Ent.get_speed (p : Ent) : ℝ :=
  p.base_speed / p.mass ^ (0.3 : ℝ)

/-- Player.update_size: if mass < target_mass then
mass += (target_mass - mass) * 0.1 else mass = target_mass. -/
def Ent.update_size (p : Ent) : Ent :=
  if p.mass < p.target_mass then
    { p with mass := p.mass + (p.target_mass - p.mass) * 0.1 }
  else
    { p with mass := p.target_mass }

/-- Player.eat: self.target_mass += other_mass / 2. -/
def Ent.eat (p : Ent) (other_mass : ℝ) : Ent :=
  { p with target_mass := p.target_mass + other_mass / 2 }

/-- Player.collisionDetection: scan the edible cells, eat (and remove from
the list) every cell whose distance to the player is at most
mass / 2 * 0.75.  The Python loop mutates self (via eat) and the list
in place; here the updated player and the surviving cells are returned. -/
def Ent.collisionDetection (p : Ent) (edibles : List Cell) : Ent × List Cell :=
  match edibles with
  | [] => (p, [])
  | e :: rest =>
    if getDistance (e.x, e.y) (p.x, p.y) ≤ p.mass / 2 * 0.75 then
      Ent.collisionDetection (p.eat e.mass) rest
    else
      let r := Ent.collisionDetection p rest
      (r.1, e :: r.2)

/-- Player.move, branch with a display and explicit dx, dy arguments:
speed = get_speed(); vx = dx * speed; vy = dy * speed; position updated
and clamped componentwise to the platform. -/
def Ent.move_dir (p : Ent) (dx dy : ℝ) : Ent :=
  let speed := p.get_speed
  let vx := dx * speed
  let vy := dy * speed
  { p with speed := speed,
           x := max 0 (min (p.x + vx) PLATFORM_WIDTH),
           y := max 0 (min (p.y + vy) PLATFORM_HEIGHT) }

/-- Player.move, headless branch (MAIN_SURFACE is None): vx and vy are
random.uniform(-1, 1) * speed; the two uniform draws are the parameters
rx and ry. -/
def Ent.move_rand (p : Ent) (rx ry : ℝ) : Ent :=
  let speed := p.get_speed
  let vx := rx * speed
  let vy := ry * speed
  { p with speed := speed,
           x := max 0 (min (p.x + vx) PLATFORM_WIDTH),
           y := max 0 (min (p.y + vy) PLATFORM_HEIGHT) }

/-- BotPlayer.random_move: dx, dy are random.uniform(-1, 1) draws;
tmpX = x + dx * speed; tmpY = y + dy * speed; clamped to the platform. -/
def Ent.random_move (p : Ent) (dx dy : ℝ) : Ent :=
  let speed := p.get_speed
  let tmpX := p.x + dx * speed
  let tmpY := p.y + dy * speed
  { p with speed := speed,
           x := max 0 (min tmpX PLATFORM_WIDTH),
           y := max 0 (min tmpY PLATFORM_HEIGHT) }

/-- Player.detect_eat: distance < self.mass / 2 and self.mass > other.mass,
then coverage = ((self.mass/2)**2 * pi) / ((other.mass/2)**2 * pi) >= 0.75. -/
def Ent.detect_eat (p other : Ent) : Bool :=
  let distance := getDistance ((p.x, p.y)) ((other.x, other.y))
  if distance < p.mass / 2 ∧ p.mass > other.mass then
    let coverage := ((p.mass / 2) ^ 2 * Real.pi) / ((other.mass / 2) ^ 2 * Real.pi)
    if coverage ≥ 0.75 then true else false
  else false

/-- Tags for entries of Painter.paintings in agar.py: the grid, the cell
list, the main player (blob) and each bot (identified by an index). -/
inductive Drawable
  | grid
  | cellList
  | blobD
  | botD (i : ℕ)
deriving DecidableEq

/-- Reference to a player object, as passed to is_collision and
resolve_collision: either the main blob or a bot (by index).  Python
passes the objects themselves; indices model object identity. -/
inductive PRef
  | blobR
  | botR (i : ℕ)
deriving DecidableEq

/-- The painting tag of a referenced player. -/
def PRef.toDrawable : PRef → Drawable
  | .blobR => Drawable.blobD
  | .botR i => Drawable.botD i

/-- GameState from agar.py: the main player (blob), the bots (each with an
identity index), the food cells (CellList.list) and the painter paintings
list.  Camera and surfaces are display-only and omitted. -/
structure GameState where
  blob : Ent
  bots : List (ℕ × Ent)
  cells : List Cell
  paintings : List Drawable

/-- Look up a referenced player in the current state. -/
def GameState.getEnt (s : GameState) : PRef → Option Ent
  | .blobR => some s.blob
  | .botR i => (s.bots.find? (fun b => b.1 == i)).map Prod.snd

/-- Write back a referenced player (models in-place mutation of the
referenced object). -/
def GameState.setEnt (s : GameState) (r : PRef) (e : Ent) : GameState :=
  match r with
  | .blobR => { s with blob := e }
  | .botR i => { s with bots := s.bots.map (fun b => if b.1 = i then (i, e) else b) }

/-- The statement "if player in self.bots: self.bots.remove(player)":
removes the first bot with the given identity; the blob is never an
element of self.bots. -/
def GameState.removeFromBots (s : GameState) : PRef → GameState
  | .blobR => s
  | .botR i => { s with bots := s.bots.eraseP (fun b => b.1 == i) }

/-- One iteration of the loop body of GameState.update over a bot:
random_move, collisionDetection against the shared cell list, update_size,
then the primary eats the bot (removing it from bots and paintings) when
blob.detect_eat(bot) holds.  Surviving bots keep their in-place updates. -/
def GameState.botStep (g : GameState) (b : ℕ × Ent) (d : ℝ × ℝ) : GameState :=
  let bot1 := Ent.random_move b.2 d.1 d.2
  let bc := Ent.collisionDetection bot1 g.cells
  let bot3 := Ent.update_size bc.1
  if g.blob.detect_eat bot3 then
    { g with blob := g.blob.eat bot3.mass,
             cells := bc.2,
             paintings := g.paintings.erase (Drawable.botD b.1),
             bots := g.bots.eraseP (fun x => x.1 == b.1) }
  else
    { g with cells := bc.2,
             bots := g.bots.map (fun x => if x.1 = b.1 then (b.1, bot3) else x) }

/-- The bot loop of GameState.update, iterating over a snapshot of the
bots list (for bot in self.bots[:]) while the state mutates.  The draw
function d supplies the two random.uniform(-1, 1) draws of each bot. -/
def GameState.botLoop (g : GameState) (snapshot : List (ℕ × Ent)) (d : ℕ → ℝ × ℝ) :
    GameState :=
  match snapshot with
  | [] => g
  | b :: rest => GameState.botLoop (GameState.botStep g b (d b.1)) rest d

/-- GameState.update: move the blob (headless random branch, draws br),
blob-vs-food collisionDetection, blob update_size, then the bot loop.
The camera update is display-only and omitted. -/
def GameState.update (s : GameState) (br : ℝ × ℝ) (d : ℕ → ℝ × ℝ) : GameState :=
  let blob1 := Ent.move_rand s.blob br.1 br.2
  let bc := Ent.collisionDetection blob1 s.cells
  let blob3 := Ent.update_size bc.1
  GameState.botLoop { s with blob := blob3, cells := bc.2 } s.bots d

/-- GameState.is_collision: computes distance, min_distance and the local
collision flag but contains no return statement, so the Python function
returns None for every pair of players. -/
def GameState.is_collision (player1 player2 : Ent) : Option Bool :=
  let distance := getDistance ((player1.x, player1.y)) ((player2.x, player2.y))
  let min_distance := (player1.mass + player2.mass) / 2
  let _collision := distance < min_distance
  none

/-- GameState.resolve_collision: when the centers are closer than
radius1 - 0.75 * radius2 the larger player eats the smaller one; the eaten
player is removed from paintings and bots, except that when the eaten
player is the main blob (passed as player1) the event is only printed. -/
def GameState.resolve_collision (s : GameState) (r1 r2 : PRef) : GameState :=
  match s.getEnt r1, s.getEnt r2 with
  | some player1, some player2 =>
    let distance := getDistance ((player1.x, player1.y)) ((player2.x, player2.y))
    let radius1 := player1.mass / 2
    let radius2 := player2.mass / 2
    let min_overlap := 0.75 * radius2
    if distance < radius1 - min_overlap then
      if player1.mass > player2.mass then
        let s1 := s.setEnt r1 (player1.eat player2.mass)
        let s2 := { s1 with paintings := s1.paintings.erase r2.toDrawable }
        s2.removeFromBots r2
      else
        let s1 := s.setEnt r2 (player2.eat player1.mass)
        match r1 with
        | PRef.blobR => s1
        | PRef.botR i =>
          let s2 := { s1 with paintings := s1.paintings.erase (Drawable.botD i) }
          s2.removeFromBots (PRef.botR i)
    else s
  | _, _ => s

/-- One pair check of GameState.check_player_collisions:
if self.is_collision(player1, player2): self.resolve_collision(...).
None is falsy in Python, so only a Some true result would trigger. -/
def GameState.collideStep (s : GameState) (r1 r2 : PRef) : GameState :=
  match s.getEnt r1, s.getEnt r2 with
  | some p1, some p2 =>
    match GameState.is_collision p1 p2 with
    | some true => s.resolve_collision r1 r2
    | _ => s
  | _, _ => s

/-- The nested pair loop of GameState.check_player_collisions over the
snapshot all_players = [self.blob] + self.bots. -/
def GameState.outerLoop (s : GameState) : List PRef → GameState
  | [] => s
  | r1 :: rest =>
    GameState.outerLoop (rest.foldl (fun acc r2 => acc.collideStep r1 r2) s) rest

/-- GameState.check_player_collisions from agar.py. -/
def GameState.check_player_collisions (s : GameState) : GameState :=
  s.outerLoop (PRef.blobR :: s.bots.map (fun b => PRef.botR b.1))

/-- The two reward scans of AgarEnv.step in agar_gym_env.py that mutate
state: bots within (blob.mass/2 + bot.mass/2) of the blob and lighter than
it are removed; cells within (blob.mass/2 + cell.mass/2) are removed. -/
def GameState.stepRemovals (s : GameState) : GameState :=
  let s1 := { s with bots := s.bots.filter (fun b =>
    ! decide (getDistance ((s.blob.x, s.blob.y)) ((b.2.x, b.2.y)) ≤
        s.blob.mass / 2 + b.2.mass / 2 ∧ s.blob.mass > b.2.mass)) }
  { s1 with cells := s1.cells.filter (fun c =>
    ! decide (getDistance ((s1.blob.x, s1.blob.y)) ((c.x, c.y)) ≤
        s1.blob.mass / 2 + c.mass / 2)) }

/-- State transition of AgarEnv.step (agar_gym_env.py lines 87-131):
blob.move(dx, dy) followed by game_state.update() and the two reward
removal scans.  Observation capture and the reward value are not part of
the world state.  In headless mode Player.move ignores dx and dy (it
takes the random branch); the directed branch is modelled here, matching
the render mode in which the action has any effect at all.  The call is
total: no validation of dx, dy is performed anywhere. -/
def stepState (s : GameState) (dx dy : ℝ) (br : ℝ × ℝ) (d : ℕ → ℝ × ℝ) : GameState :=
  GameState.stepRemovals
    (GameState.update { s with blob := s.blob.move_dir dx dy } br d)

/-! Helper lemmas about the embedded operations. -/

lemma eat_x (p : Ent) (m : ℝ) : (p.eat m).x = p.x := rfl

lemma eat_y (p : Ent) (m : ℝ) : (p.eat m).y = p.y := rfl

lemma eat_mass (p : Ent) (m : ℝ) : (p.eat m).mass = p.mass := rfl

lemma eat_target (p : Ent) (m : ℝ) :
    (p.eat m).target_mass = p.target_mass + m / 2 := rfl

lemma update_size_x (p : Ent) : p.update_size.x = p.x := by
  unfold Ent.update_size; split <;> rfl

lemma update_size_y (p : Ent) : p.update_size.y = p.y := by
  unfold Ent.update_size; split <;> rfl

lemma update_size_target (p : Ent) :
    p.update_size.target_mass = p.target_mass := by
  unfold Ent.update_size; split <;> rfl

lemma getDistance_horiz (x1 x2 y : ℝ) :
    getDistance ((x1, y)) ((x2, y)) = |x1 - x2| := by
  unfold getDistance
  simp only [sub_self, abs_zero]
  rw [sq_abs]
  norm_num
  exact Real.sqrt_sq_eq_abs _

lemma collisionDetection_nil (p : Ent) :
    Ent.collisionDetection p [] = (p, []) := rfl

lemma collisionDetection_singleton_pos (p : Ent) (c : Cell)
    (h : getDistance ((c.x, c.y)) ((p.x, p.y)) ≤ p.mass / 2 * 0.75) :
    Ent.collisionDetection p [c] = (p.eat c.mass, []) := by
  unfold Ent.collisionDetection
  rw [if_pos h]
  rfl

lemma collisionDetection_singleton_neg (p : Ent) (c : Cell)
    (h : ¬ getDistance ((c.x, c.y)) ((p.x, p.y)) ≤ p.mass / 2 * 0.75) :
    Ent.collisionDetection p [c] = (p, [c]) := by
  unfold Ent.collisionDetection
  rw [if_neg h]
  rfl

lemma collisionDetection_mem (l : List Cell) :
    ∀ (p : Ent) (c : Cell), c ∈ (Ent.collisionDetection p l).2 ↔
      c ∈ l ∧ ¬ getDistance ((c.x, c.y)) ((p.x, p.y)) ≤ p.mass / 2 * 0.75 := by
  induction l with
  | nil => intro p c; simp [collisionDetection_nil]
  | cons e rest ih =>
    intro p c
    unfold Ent.collisionDetection
    by_cases he : getDistance ((e.x, e.y)) ((p.x, p.y)) ≤ p.mass / 2 * 0.75
    · rw [if_pos he]
      rw [ih (p.eat e.mass) c]
      simp only [eat_x, eat_y, eat_mass]
      constructor
      · rintro ⟨h1, h2⟩; exact ⟨List.mem_cons_of_mem _ h1, h2⟩
      · rintro ⟨h1, h2⟩
        rcases List.mem_cons.mp h1 with h3 | h3
        · exact absurd (h3 ▸ he) h2
        · exact ⟨h3, h2⟩
    · rw [if_neg he]
      simp only [List.mem_cons]
      rw [ih p c]
      constructor
      · rintro (h1 | ⟨h1, h2⟩)
        · exact ⟨Or.inl h1, h1 ▸ he⟩
        · exact ⟨Or.inr h1, h2⟩
      · rintro ⟨h1 | h1, h2⟩
        · exact Or.inl h1
        · exact Or.inr ⟨h1, h2⟩

lemma collisionDetection_fst_x (l : List Cell) :
    ∀ p : Ent, (Ent.collisionDetection p l).1.x = p.x := by
  induction l with
  | nil => intro p; rfl
  | cons e rest ih =>
    intro p
    unfold Ent.collisionDetection
    split
    · rw [ih]; rfl
    · exact ih p

lemma collisionDetection_fst_y (l : List Cell) :
    ∀ p : Ent, (Ent.collisionDetection p l).1.y = p.y := by
  induction l with
  | nil => intro p; rfl
  | cons e rest ih =>
    intro p
    unfold Ent.collisionDetection
    split
    · rw [ih]; rfl
    · exact ih p

lemma collisionDetection_fst_mass (l : List Cell) :
    ∀ p : Ent, (Ent.collisionDetection p l).1.mass = p.mass := by
  induction l with
  | nil => intro p; rfl
  | cons e rest ih =>
    intro p
    unfold Ent.collisionDetection
    split
    · rw [ih]; rfl
    · exact ih p

/-! Clamping helpers for the movement controller. -/

lemma clamp_nonneg (v W : ℝ) : 0 ≤ max 0 (min v W) := le_max_left 0 _

lemma clamp_le (v W : ℝ) (hW : 0 ≤ W) : max 0 (min v W) ≤ W :=
  max_le hW (min_le_right v W)

lemma clamp_top (v W : ℝ) (hW : 0 ≤ W) (hv : 0 ≤ v) :
    max 0 (min (W + v) W) = W := by
  rw [min_eq_right (le_add_of_nonneg_right hv), max_eq_right hW]

lemma clamp_bot (v W : ℝ) (hW : 0 ≤ W) (hv : v ≤ 0) :
    max 0 (min (0 + v) W) = 0 := by
  rw [zero_add, min_eq_left (hv.trans hW), max_eq_left hv]

lemma get_speed_nonneg (p : Ent) (hb : 0 ≤ p.base_speed) (hm : 0 ≤ p.mass) :
    0 ≤ p.get_speed :=
  div_nonneg hb (Real.rpow_nonneg hm _)

/-! Numeric facts about the speed of a mass-20 entity,
10 / 20 ^ 0.3. -/

lemma twentyPow_pos : (0:ℝ) < (20:ℝ) ^ (0.3:ℝ) :=
  Real.rpow_pos_of_pos (by norm_num) _

lemma twentyPow_ge_one : (1:ℝ) ≤ (20:ℝ) ^ (0.3:ℝ) :=
  Real.one_le_rpow (by norm_num) (by norm_num)

lemma twentyPow_lt_four : (20:ℝ) ^ (0.3:ℝ) < 4 := by
  have h0 : (0:ℝ) ≤ (20:ℝ) ^ (0.3:ℝ) := le_of_lt twentyPow_pos
  have h10 : ((20:ℝ) ^ (0.3:ℝ)) ^ (10:ℕ) = 8000 := by
    rw [← Real.rpow_natCast ((20:ℝ) ^ (0.3:ℝ)) 10,
      ← Real.rpow_mul (by norm_num : (0:ℝ) ≤ 20)]
    rw [show (0.3:ℝ) * ((10:ℕ):ℝ) = ((3:ℕ):ℝ) by norm_num]
    rw [Real.rpow_natCast]
    norm_num
  have : ((20:ℝ) ^ (0.3:ℝ)) ^ (10:ℕ) < 4 ^ (10:ℕ) := by
    rw [h10]; norm_num
  exact (pow_lt_pow_iff_left₀ h0 (by norm_num) (by norm_num)).mp this

lemma sp_pos : (0:ℝ) < 10 / (20:ℝ) ^ (0.3:ℝ) :=
  div_pos (by norm_num) twentyPow_pos

lemma sp_le_ten : 10 / (20:ℝ) ^ (0.3:ℝ) ≤ 10 := by
  calc 10 / (20:ℝ) ^ (0.3:ℝ) ≤ 10 / 1 := by
        apply div_le_div_of_nonneg_left (by norm_num) (by norm_num) twentyPow_ge_one
    _ = 10 := by norm_num

lemma sp_gt : (2.5:ℝ) < 10 / (20:ℝ) ^ (0.3:ℝ) := by
  rw [lt_div_iff₀ twentyPow_pos]
  nlinarith [twentyPow_lt_four, twentyPow_pos]

lemma update_size_mass_lt (p : Ent) (h : p.mass < p.target_mass) :
    (p.update_size).mass = p.mass + (p.target_mass - p.mass) * 0.1 := by
  unfold Ent.update_size; rw [if_pos h]

lemma update_size_mass_ge (p : Ent) (h : ¬ p.mass < p.target_mass) :
    (p.update_size).mass = p.target_mass := by
  unfold Ent.update_size; rw [if_neg h]

lemma update_size_le (p : Ent) (h : p.mass ≤ p.target_mass) :
    (p.update_size).mass ≤ p.target_mass := by
  unfold Ent.update_size
  split
  · simp only; nlinarith
  · simp only; exact le_refl _

lemma update_size_iter (p : Ent) (h : p.mass ≤ p.target_mass) : ∀ n : ℕ,
    (Ent.update_size^[n] p).mass ≤ p.target_mass ∧
    (Ent.update_size^[n] p).target_mass = p.target_mass := by
  intro n
  induction n with
  | zero => exact ⟨h, rfl⟩
  | succ k ih =>
    rw [Function.iterate_succ_apply']
    refine ⟨?_, by rw [update_size_target, ih.2]⟩
    have h2 : (Ent.update_size^[k] p).mass ≤ (Ent.update_size^[k] p).target_mass := by
      rw [ih.2]; exact ih.1
    have h3 := update_size_le _ h2
    rw [ih.2] at h3
    exact h3

lemma collideStep_eq (s : GameState) (r1 r2 : PRef) : s.collideStep r1 r2 = s := by
  unfold GameState.collideStep
  cases h1 : s.getEnt r1 <;> cases h2 : s.getEnt r2 <;> simp [GameState.is_collision]

lemma foldl_collideStep (r1 : PRef) (l : List PRef) (s : GameState) :
    l.foldl (fun acc r2 => acc.collideStep r1 r2) s = s := by
  induction l generalizing s with
  | nil => rfl
  | cons r2 rest ih =>
    rw [List.foldl_cons, collideStep_eq]
    exact ih s

lemma outerLoop_eq (l : List PRef) : ∀ s : GameState, s.outerLoop l = s := by
  induction l with
  | nil => intro s; rfl
  | cons r1 rest ih =>
    intro s
    unfold GameState.outerLoop
    rw [foldl_collideStep]
    exact ih s

lemma check_player_collisions_eq (s : GameState) : s.check_player_collisions = s := by
  unfold GameState.check_player_collisions
  exact outerLoop_eq _ s

lemma detect_eat_iff (A B : Ent) :
    A.detect_eat B = true ↔
      getDistance ((A.x, A.y)) ((B.x, B.y)) < A.mass / 2 ∧ A.mass > B.mass ∧
        (A.mass / 2) ^ 2 / (B.mass / 2) ^ 2 ≥ 0.75 := by
  unfold Ent.detect_eat
  simp only [mul_div_mul_right _ _ Real.pi_ne_zero]
  by_cases h1 : getDistance ((A.x, A.y)) ((B.x, B.y)) < A.mass / 2 ∧ A.mass > B.mass
  · rw [if_pos h1]
    by_cases h2 : (A.mass / 2) ^ 2 / (B.mass / 2) ^ 2 ≥ 0.75
    · rw [if_pos h2]
      simp only [true_iff]
      exact ⟨h1.1, h1.2, h2⟩
    · rw [if_neg h2]
      simp only [Bool.false_eq_true, false_iff]
      rintro ⟨-, -, h3⟩
      exact h2 h3
  · rw [if_neg h1]
    simp only [Bool.false_eq_true, false_iff]
    rintro ⟨h2, h3, -⟩
    exact h1 ⟨h2, h3⟩

/-- Entity of mass 40 at the origin (C2 scenario). -/
def entA : Ent := ⟨0, 0, 0, 40, 40, 10⟩

/-- Entity of mass 20 at distance 15 from the origin (C2 scenario). -/
def entB : Ent := ⟨15, 0, 0, 20, 20, 10⟩

/-- Entity of mass 20 at the origin (C1 witness). -/
def p1ex : Ent := ⟨0, 0, 0, 20, 20, 10⟩

/-- Food cell at distance exactly 7.5 from the origin (C1 witness). -/
def c1ex : Cell := ⟨4.5, 6, 7⟩

/-- Entity of mass 10 below its target mass 20 (C3 witness). -/
def p3ex : Ent := ⟨0, 0, 0, 10, 20, 10⟩

/-- Entity of mass 20 at the right platform boundary (C5 witness). -/
def p5ex : Ent := ⟨2500, 0, 0, 20, 20, 10⟩

/-- Position inside the platform rectangle. -/
def inBounds (p : Ent) : Prop :=
  0 ≤ p.x ∧ p.x ≤ PLATFORM_WIDTH ∧ 0 ≤ p.y ∧ p.y ≤ PLATFORM_HEIGHT

lemma move_dir_x (p : Ent) (dx dy : ℝ) :
    (p.move_dir dx dy).x = max 0 (min (p.x + dx * p.get_speed) PLATFORM_WIDTH) := rfl

lemma move_dir_y (p : Ent) (dx dy : ℝ) :
    (p.move_dir dx dy).y = max 0 (min (p.y + dy * p.get_speed) PLATFORM_HEIGHT) := rfl

lemma move_rand_x (p : Ent) (rx ry : ℝ) :
    (p.move_rand rx ry).x = max 0 (min (p.x + rx * p.get_speed) PLATFORM_WIDTH) := rfl

lemma move_rand_y (p : Ent) (rx ry : ℝ) :
    (p.move_rand rx ry).y = max 0 (min (p.y + ry * p.get_speed) PLATFORM_HEIGHT) := rfl

lemma random_move_x (p : Ent) (dx dy : ℝ) :
    (p.random_move dx dy).x = max 0 (min (p.x + dx * p.get_speed) PLATFORM_WIDTH) := rfl

lemma random_move_y (p : Ent) (dx dy : ℝ) :
    (p.random_move dx dy).y = max 0 (min (p.y + dy * p.get_speed) PLATFORM_HEIGHT) := rfl

lemma platform_w_nonneg : (0:ℝ) ≤ PLATFORM_WIDTH := by norm_num [PLATFORM_WIDTH]

lemma platform_h_nonneg : (0:ℝ) ≤ PLATFORM_HEIGHT := by norm_num [PLATFORM_HEIGHT]

lemma inBounds_clamped {a b : ℝ} (q : Ent)
    (hx : q.x = max 0 (min a PLATFORM_WIDTH))
    (hy : q.y = max 0 (min b PLATFORM_HEIGHT)) : inBounds q := by
  refine ⟨?_, ?_, ?_, ?_⟩
  · rw [hx]; exact clamp_nonneg _ _
  · rw [hx]; exact clamp_le _ _ platform_w_nonneg
  · rw [hy]; exact clamp_nonneg _ _
  · rw [hy]; exact clamp_le _ _ platform_h_nonneg

/-! The claim theorems. -/

/-- Claim C1: Player.collisionDetection consumes a food cell exactly when
the Euclidean distance between the centers is at most mass / 2 * 0.75;
at the threshold the cell is eaten (entity.eat(cell.mass) applied, cell
removed), at any strictly greater distance the cell is untouched, and in
a general population a cell survives the scan exactly when it is strictly
beyond the threshold. -/
theorem collisionDetection_threshold (p : Ent) (c : Cell) :
    (getDistance ((c.x, c.y)) ((p.x, p.y)) ≤ p.mass / 2 * 0.75 →
      Ent.collisionDetection p [c] = (p.eat c.mass, [])) ∧
    (p.mass / 2 * 0.75 < getDistance ((c.x, c.y)) ((p.x, p.y)) →
      Ent.collisionDetection p [c] = (p, [c])) ∧
    (∀ l : List Cell, c ∈ (Ent.collisionDetection p l).2 ↔
      c ∈ l ∧ p.mass / 2 * 0.75 < getDistance ((c.x, c.y)) ((p.x, p.y))) := by
  refine ⟨collisionDetection_singleton_pos p c,
    fun h => collisionDetection_singleton_neg p c (not_le.mpr h), fun l => ?_⟩
  rw [collisionDetection_mem]
  simp only [not_le]

/-- Witness for C1: a mass-20 entity at distance exactly
(20 / 2) * 0.75 = 7.5 from a food cell does eat it. -/
theorem collisionDetection_threshold_witness :
    getDistance ((c1ex.x, c1ex.y)) ((p1ex.x, p1ex.y)) ≤ p1ex.mass / 2 * 0.75 ∧
    Ent.collisionDetection p1ex [c1ex] = (p1ex.eat c1ex.mass, []) := by
  have hd : getDistance ((c1ex.x, c1ex.y)) ((p1ex.x, p1ex.y)) = 7.5 := by
    show Real.sqrt (|(4.5:ℝ) - 0| ^ 2 + |(6:ℝ) - 0| ^ 2) = 7.5
    rw [show |(4.5:ℝ) - 0| ^ 2 + |(6:ℝ) - 0| ^ 2 = 7.5 ^ 2 by norm_num]
    exact Real.sqrt_sq (by norm_num)
  have hle : getDistance ((c1ex.x, c1ex.y)) ((p1ex.x, p1ex.y)) ≤ p1ex.mass / 2 * 0.75 := by
    rw [hd]; norm_num [p1ex]
  exact ⟨hle, (collisionDetection_threshold p1ex c1ex).1 hle⟩

/-- Claim C2: detect_eat A B returns True exactly when
distance < A.mass / 2, A.mass > B.mass and the coverage ratio
(A.mass/2)^2 / (B.mass/2)^2 is at least 0.75; for A.mass = 40 and
B.mass = 20 at distance 15 it returns True and with the masses swapped it
returns False. -/
theorem detect_eat_characterization :
    (∀ A B : Ent, 0 < A.mass → 0 < B.mass →
      (A.detect_eat B = true ↔
        getDistance ((A.x, A.y)) ((B.x, B.y)) < A.mass / 2 ∧ A.mass > B.mass ∧
          (A.mass / 2) ^ 2 / (B.mass / 2) ^ 2 ≥ 0.75)) ∧
    Ent.detect_eat entA entB = true ∧
    Ent.detect_eat entB entA = false := by
  refine ⟨fun A B _ _ => detect_eat_iff A B, ?_, ?_⟩
  · rw [detect_eat_iff]
    refine ⟨?_, by norm_num [entA, entB], by norm_num [entA, entB]⟩
    have : getDistance ((entA.x, entA.y)) ((entB.x, entB.y)) = 15 := by
      show getDistance ((0, 0)) ((15, 0)) = 15
      rw [getDistance_horiz]; norm_num
    rw [this]; norm_num [entA]
  · rw [Bool.eq_false_iff]
    intro htrue
    obtain ⟨hd, -, -⟩ := (detect_eat_iff entB entA).mp htrue
    have : getDistance ((entB.x, entB.y)) ((entA.x, entA.y)) = 15 := by
      show getDistance ((15, 0)) ((0, 0)) = 15
      rw [getDistance_horiz]; norm_num
    rw [this] at hd
    norm_num [entB] at hd

/-- Witness for C2: the characterization applied to the concrete pair of
masses 40 and 20, with the positivity hypotheses discharged. -/
theorem detect_eat_characterization_witness :
    (0:ℝ) < entA.mass ∧ (0:ℝ) < entB.mass ∧
    (Ent.detect_eat entA entB = true ↔
      getDistance ((entA.x, entA.y)) ((entB.x, entB.y)) < entA.mass / 2 ∧
        entA.mass > entB.mass ∧
        (entA.mass / 2) ^ 2 / (entB.mass / 2) ^ 2 ≥ 0.75) :=
  ⟨by norm_num [entA], by norm_num [entB],
    detect_eat_characterization.1 entA entB (by norm_num [entA]) (by norm_num [entB])⟩

/-- Claim C3: one growth step sets mass to
mass + (target_mass - mass) * 0.1 when mass < target_mass and to
target_mass otherwise; starting from mass at most target_mass, repeated
application never exceeds target_mass, and each step with
mass < target_mass strictly decreases the gap. -/
theorem update_size_growth (p : Ent) :
    (p.update_size).target_mass = p.target_mass ∧
    (p.mass < p.target_mass →
      (p.update_size).mass = p.mass + (p.target_mass - p.mass) * 0.1) ∧
    (¬ p.mass < p.target_mass → (p.update_size).mass = p.target_mass) ∧
    (p.mass ≤ p.target_mass →
      ∀ n : ℕ, (Ent.update_size^[n] p).mass ≤ p.target_mass) ∧
    (p.mass < p.target_mass →
      |p.target_mass - (p.update_size).mass| < |p.target_mass - p.mass|) := by
  refine ⟨update_size_target p, update_size_mass_lt p, update_size_mass_ge p,
    fun h n => (update_size_iter p h n).1, fun h => ?_⟩
  rw [update_size_mass_lt p h]
  rw [abs_of_pos (by nlinarith), abs_of_pos (by linarith)]
  nlinarith

/-- Witness for C3: one step from mass 10 toward target 20 lands at 11. -/
theorem update_size_growth_witness :
    p3ex.mass < p3ex.target_mass ∧
    (p3ex.update_size).mass = p3ex.mass + (p3ex.target_mass - p3ex.mass) * 0.1 :=
  ⟨by norm_num [p3ex], (update_size_growth p3ex).2.1 (by norm_num [p3ex])⟩

/-- Claim C4: eat(v) increases target_mass by exactly v / 2 and leaves
mass and position unchanged; eating mass 20 adds exactly 10 to the
target. -/
theorem eat_spec (A : Ent) (v : ℝ) :
    (A.eat v).target_mass = A.target_mass + v / 2 ∧
    (A.eat v).mass = A.mass ∧
    (A.eat v).x = A.x ∧ (A.eat v).y = A.y ∧
    (A.eat 20).target_mass = A.target_mass + 10 := by
  refine ⟨rfl, rfl, rfl, rfl, ?_⟩
  rw [eat_target]; norm_num

/-- Claim C5: after Player.move (directed branch or headless random
branch) or BotPlayer.random_move the position lies in
[0, PLATFORM_WIDTH] x [0, PLATFORM_HEIGHT], and a coordinate already at a
boundary with an outward velocity component stays exactly at the
boundary. -/
theorem move_clamps (p : Ent) (dx dy rx ry : ℝ)
    (hb : 0 ≤ p.base_speed) (hm : 0 ≤ p.mass) :
    inBounds (p.move_dir dx dy) ∧ inBounds (p.move_rand rx ry) ∧
    inBounds (p.random_move rx ry) ∧
    (p.x = PLATFORM_WIDTH → 0 ≤ dx → (p.move_dir dx dy).x = PLATFORM_WIDTH) ∧
    (p.x = 0 → dx ≤ 0 → (p.move_dir dx dy).x = 0) ∧
    (p.y = PLATFORM_HEIGHT → 0 ≤ dy → (p.move_dir dx dy).y = PLATFORM_HEIGHT) ∧
    (p.y = 0 → dy ≤ 0 → (p.move_dir dx dy).y = 0) ∧
    (p.x = PLATFORM_WIDTH → 0 ≤ rx → (p.random_move rx ry).x = PLATFORM_WIDTH) ∧
    (p.x = 0 → rx ≤ 0 → (p.random_move rx ry).x = 0) ∧
    (p.y = PLATFORM_HEIGHT → 0 ≤ ry → (p.random_move rx ry).y = PLATFORM_HEIGHT) ∧
    (p.y = 0 → ry ≤ 0 → (p.random_move rx ry).y = 0) := by
  have hs : 0 ≤ p.get_speed := get_speed_nonneg p hb hm
  refine ⟨inBounds_clamped _ (move_dir_x p dx dy) (move_dir_y p dx dy),
    inBounds_clamped _ (move_rand_x p rx ry) (move_rand_y p rx ry),
    inBounds_clamped _ (random_move_x p rx ry) (random_move_y p rx ry),
    ?_, ?_, ?_, ?_, ?_, ?_, ?_, ?_⟩
  · intro hx hdx
    rw [move_dir_x, hx]
    exact clamp_top _ _ platform_w_nonneg (mul_nonneg hdx hs)
  · intro hx hdx
    rw [move_dir_x, hx]
    exact clamp_bot _ _ platform_w_nonneg (mul_nonpos_iff.mpr (Or.inr ⟨hdx, hs⟩))
  · intro hy hdy
    rw [move_dir_y, hy]
    exact clamp_top _ _ platform_h_nonneg (mul_nonneg hdy hs)
  · intro hy hdy
    rw [move_dir_y, hy]
    exact clamp_bot _ _ platform_h_nonneg (mul_nonpos_iff.mpr (Or.inr ⟨hdy, hs⟩))
  · intro hx hdx
    rw [random_move_x, hx]
    exact clamp_top _ _ platform_w_nonneg (mul_nonneg hdx hs)
  · intro hx hdx
    rw [random_move_x, hx]
    exact clamp_bot _ _ platform_w_nonneg (mul_nonpos_iff.mpr (Or.inr ⟨hdx, hs⟩))
  · intro hy hdy
    rw [random_move_y, hy]
    exact clamp_top _ _ platform_h_nonneg (mul_nonneg hdy hs)
  · intro hy hdy
    rw [random_move_y, hy]
    exact clamp_bot _ _ platform_h_nonneg (mul_nonpos_iff.mpr (Or.inr ⟨hdy, hs⟩))

/-- Witness for C5: a mass-20 entity at the right boundary pushed further
right stays exactly at the boundary, and at the bottom-left corner pushed
down stays at 0. -/
theorem move_clamps_witness :
    (0:ℝ) ≤ p5ex.base_speed ∧ (0:ℝ) ≤ p5ex.mass ∧
    (p5ex.move_dir 1 1).x = PLATFORM_WIDTH ∧
    (p5ex.random_move 0 (-1)).y = 0 := by
  have h := move_clamps p5ex 1 1 0 (-1) (by norm_num [p5ex]) (by norm_num [p5ex])
  refine ⟨by norm_num [p5ex], by norm_num [p5ex], ?_, ?_⟩
  · exact h.2.2.2.1 (by norm_num [p5ex, PLATFORM_WIDTH]) (by norm_num)
  · exact h.2.2.2.2.2.2.2.2.2.2 (by norm_num [p5ex]) (by norm_num)

/-- Claim C9: the speed law base_speed / mass ^ 0.3 with base_speed = 10
is strictly decreasing over positive masses. -/
theorem get_speed_strict_anti (p q : Ent)
    (hp : p.base_speed = 10) (hq : q.base_speed = 10)
    (h1 : 0 < p.mass) (h2 : p.mass < q.mass) :
    q.get_speed < p.get_speed := by
  unfold Ent.get_speed
  rw [hp, hq]
  have hpp : (0:ℝ) < p.mass ^ (0.3:ℝ) := Real.rpow_pos_of_pos h1 _
  have hqp : (0:ℝ) < q.mass ^ (0.3:ℝ) := Real.rpow_pos_of_pos (h1.trans h2) _
  have hlt : p.mass ^ (0.3:ℝ) < q.mass ^ (0.3:ℝ) :=
    Real.rpow_lt_rpow (le_of_lt h1) h2 (by norm_num)
  exact (div_lt_div_iff_of_pos_left (by norm_num) hqp hpp).mpr hlt

/-- Witness for C9: the mass-20 entity is strictly faster than the
mass-40 entity. -/
theorem get_speed_strict_anti_witness :
    p1ex.base_speed = 10 ∧ entA.base_speed = 10 ∧
    (0:ℝ) < p1ex.mass ∧ p1ex.mass < entA.mass ∧
    entA.get_speed < p1ex.get_speed :=
  ⟨rfl, rfl, by norm_num [p1ex], by norm_num [p1ex, entA],
    get_speed_strict_anti p1ex entA rfl rfl (by norm_num [p1ex])
      (by norm_num [p1ex, entA])⟩

/-! Lemmas tracking the blob through GameState.update. -/

lemma stepRemovals_blob (g : GameState) : (g.stepRemovals).blob = g.blob := rfl

lemma botStep_blob_x (g : GameState) (b : ℕ × Ent) (d : ℝ × ℝ) :
    ((g.botStep b d).blob).x = g.blob.x := by
  simp only [GameState.botStep]; split <;> rfl

lemma botStep_blob_y (g : GameState) (b : ℕ × Ent) (d : ℝ × ℝ) :
    ((g.botStep b d).blob).y = g.blob.y := by
  simp only [GameState.botStep]; split <;> rfl

lemma botLoop_blob_x (l : List (ℕ × Ent)) : ∀ (g : GameState) (d : ℕ → ℝ × ℝ),
    ((GameState.botLoop g l d).blob).x = g.blob.x := by
  induction l with
  | nil => intro g d; rfl
  | cons b rest ih =>
    intro g d
    unfold GameState.botLoop
    rw [ih]
    exact botStep_blob_x g b (d b.1)

lemma botLoop_blob_y (l : List (ℕ × Ent)) : ∀ (g : GameState) (d : ℕ → ℝ × ℝ),
    ((GameState.botLoop g l d).blob).y = g.blob.y := by
  induction l with
  | nil => intro g d; rfl
  | cons b rest ih =>
    intro g d
    unfold GameState.botLoop
    rw [ih]
    exact botStep_blob_y g b (d b.1)

lemma update_blob_x (s : GameState) (br : ℝ × ℝ) (d : ℕ → ℝ × ℝ) :
    ((s.update br d).blob).x =
      max 0 (min (s.blob.x + br.1 * s.blob.get_speed) PLATFORM_WIDTH) := by
  simp only [GameState.update]
  rw [botLoop_blob_x]
  show (Ent.update_size
    (Ent.collisionDetection (Ent.move_rand s.blob br.1 br.2) s.cells).1).x = _
  rw [update_size_x, collisionDetection_fst_x, move_rand_x]

lemma update_blob_y (s : GameState) (br : ℝ × ℝ) (d : ℕ → ℝ × ℝ) :
    ((s.update br d).blob).y =
      max 0 (min (s.blob.y + br.2 * s.blob.get_speed) PLATFORM_HEIGHT) := by
  simp only [GameState.update]
  rw [botLoop_blob_y]
  show (Ent.update_size
    (Ent.collisionDetection (Ent.move_rand s.blob br.1 br.2) s.cells).1).y = _
  rw [update_size_y, collisionDetection_fst_y, move_rand_y]

lemma botStep_paintings (g : GameState) (b : ℕ × Ent) (d : ℝ × ℝ)
    (h : Drawable.blobD ∈ g.paintings) :
    Drawable.blobD ∈ (g.botStep b d).paintings := by
  simp only [GameState.botStep]
  split
  · show Drawable.blobD ∈ g.paintings.erase (Drawable.botD b.1)
    exact (List.mem_erase_of_ne (by simp)).mpr h
  · exact h

lemma botLoop_paintings (l : List (ℕ × Ent)) : ∀ (g : GameState) (d : ℕ → ℝ × ℝ),
    Drawable.blobD ∈ g.paintings →
    Drawable.blobD ∈ (GameState.botLoop g l d).paintings := by
  induction l with
  | nil => intro g d h; exact h
  | cons b rest ih =>
    intro g d h
    unfold GameState.botLoop
    exact ih _ d (botStep_paintings g b (d b.1) h)

lemma update_preserves_blobD (s : GameState) (br : ℝ × ℝ) (d : ℕ → ℝ × ℝ)
    (h : Drawable.blobD ∈ s.paintings) :
    Drawable.blobD ∈ (s.update br d).paintings := by
  simp only [GameState.update]
  exact botLoop_paintings _ _ d h

/-- Reachability of world states by ticks (GameState.update, with
arbitrary random draws) and collision passes
(GameState.check_player_collisions). -/
inductive Reach : GameState → GameState → Prop
  | refl (s : GameState) : Reach s s
  | tick (s t : GameState) (br : ℝ × ℝ) (d : ℕ → ℝ × ℝ) :
      Reach s t → Reach s (t.update br d)
  | collide (s t : GameState) : Reach s t → Reach s (t.check_player_collisions)

/-- Claim C7: along every sequence of tick updates and collision passes
the primary entity stays in the painter paintings list (the world
collection whose membership the environment checks); no reachable
operation removes it, even when a larger bot satisfies the eating
condition, since is_collision never reports a collision and
GameState.update only ever removes bots. -/
theorem primary_never_removed (s t : GameState) (hr : Reach s t)
    (h0 : Drawable.blobD ∈ s.paintings) : Drawable.blobD ∈ t.paintings := by
  induction hr with
  | refl => exact h0
  | tick t br d hst ih => exact update_preserves_blobD _ _ _ ih
  | collide t hst ih => rw [check_player_collisions_eq]; exact ih

/-- World with just the primary and its paintings entry (C7 witness). -/
def g7 : GameState :=
  ⟨p1ex, [], [], [Drawable.grid, Drawable.cellList, Drawable.blobD]⟩

/-- Witness for C7: after one concrete tick from a concrete world the
primary is still painted. -/
theorem primary_never_removed_witness :
    Reach g7 (g7.update (0, 0) (fun _ => (0, 0))) ∧
    Drawable.blobD ∈ g7.paintings ∧
    Drawable.blobD ∈ (g7.update (0, 0) (fun _ => (0, 0))).paintings := by
  have h1 : Reach g7 (g7.update (0, 0) (fun _ => (0, 0))) :=
    Reach.tick _ _ _ _ (Reach.refl g7)
  have h2 : Drawable.blobD ∈ g7.paintings := by simp [g7]
  exact ⟨h1, h2, primary_never_removed _ _ h1 h2⟩

/-! The C6 scenario: one primary of mass 20, one food cell at distance 5,
no bots. -/

/-- The primary of the C6 scenario: mass 20 at (1000, 1000). -/
def g6blob : Ent := ⟨1000, 1000, 0, 20, 20, 10⟩

/-- The food cell of the C6 scenario, at distance 5 from the primary. -/
def g6cell : Cell := ⟨1005, 1000, 7⟩

/-- The C6 world. -/
def g6 : GameState :=
  ⟨g6blob, [], [g6cell], [Drawable.grid, Drawable.cellList, Drawable.blobD]⟩

lemma update_no_bots (s : GameState) (hb : s.bots = []) (br : ℝ × ℝ)
    (d : ℕ → ℝ × ℝ) :
    s.update br d = { s with
      blob := Ent.update_size
        (Ent.collisionDetection (Ent.move_rand s.blob br.1 br.2) s.cells).1,
      cells :=
        (Ent.collisionDetection (Ent.move_rand s.blob br.1 br.2) s.cells).2 } := by
  simp only [GameState.update]
  rw [hb]
  rfl

lemma g6_move_zero_x : (Ent.move_rand g6blob 0 0).x = 1000 := by
  rw [move_rand_x, zero_mul, add_zero]
  rw [show g6blob.x = 1000 from rfl]
  rw [min_eq_left (by norm_num [PLATFORM_WIDTH]), max_eq_right (by norm_num)]

lemma g6_move_zero_y : (Ent.move_rand g6blob 0 0).y = 1000 := by
  rw [move_rand_y, zero_mul, add_zero]
  rw [show g6blob.y = 1000 from rfl]
  rw [min_eq_left (by norm_num [PLATFORM_HEIGHT]), max_eq_right (by norm_num)]

/-- Claim C6 (amended): in the C6 world, a tick whose random move draws
are (0, 0) (the primary does not move, staying at distance 5, inside its
eating threshold 7.5) removes the food cell from the population and
leaves the primary with target_mass 23.5. -/
theorem update_distance5_amended :
    (g6.update (0, 0) (fun _ => (0, 0))).cells = [] ∧
    (g6.update (0, 0) (fun _ => (0, 0))).blob.target_mass = 23.5 := by
  have hcond : getDistance ((g6cell.x, g6cell.y))
      (((Ent.move_rand g6blob 0 0).x, (Ent.move_rand g6blob 0 0).y)) ≤
      (Ent.move_rand g6blob 0 0).mass / 2 * 0.75 := by
    rw [g6_move_zero_x, g6_move_zero_y]
    rw [show g6cell.x = 1005 from rfl, show g6cell.y = 1000 from rfl]
    rw [getDistance_horiz]
    rw [show (Ent.move_rand g6blob 0 0).mass = 20 from rfl]
    norm_num
  have hcd := collisionDetection_singleton_pos _ _ hcond
  rw [update_no_bots g6 rfl]
  constructor
  · show (Ent.collisionDetection (Ent.move_rand g6.blob 0 0) g6.cells).2 = []
    rw [show g6.blob = g6blob from rfl, show g6.cells = [g6cell] from rfl, hcd]
  · show (Ent.update_size
      (Ent.collisionDetection (Ent.move_rand g6.blob 0 0) g6.cells).1).target_mass = 23.5
    rw [show g6.blob = g6blob from rfl, show g6.cells = [g6cell] from rfl, hcd,
      update_size_target, eat_target]
    rw [show (Ent.move_rand g6blob 0 0).target_mass = 20 from rfl,
      show g6cell.mass = 7 from rfl]
    norm_num

lemma g6_move_neg_x :
    (Ent.move_rand g6blob (-1) 0).x = 1000 - 10 / (20:ℝ) ^ (0.3:ℝ) := by
  rw [move_rand_x]
  rw [show g6blob.x = 1000 from rfl,
    show g6blob.get_speed = 10 / (20:ℝ) ^ (0.3:ℝ) from rfl]
  rw [show (1000:ℝ) + -1 * (10 / (20:ℝ) ^ (0.3:ℝ)) =
    1000 - 10 / (20:ℝ) ^ (0.3:ℝ) by ring]
  rw [min_eq_left (by have := sp_pos; norm_num [PLATFORM_WIDTH]; linarith)]
  rw [max_eq_right (by have := sp_le_ten; linarith)]

/-- Counterexample for C6: the claim quantifies over one whole tick, but
GameState.update first moves the primary with the random headless draws;
with draw (-1, 0) the primary retreats by its speed 10 / 20^0.3 > 2.5,
ending beyond its eating threshold 7.5, so the food cell survives the
tick and target_mass stays 20, not 23.5. -/
theorem update_distance5_counterexample :
    getDistance ((g6cell.x, g6cell.y)) ((g6blob.x, g6blob.y)) = 5 ∧
    g6blob.mass = 20 ∧ g6.bots = [] ∧
    ¬ (∀ br : ℝ × ℝ, -1 ≤ br.1 → br.1 ≤ 1 → -1 ≤ br.2 → br.2 ≤ 1 →
      (g6.update br (fun _ => (0, 0))).cells = [] ∧
      (g6.update br (fun _ => (0, 0))).blob.target_mass = 23.5) := by
  refine ⟨?_, rfl, rfl, ?_⟩
  · rw [show g6cell.x = 1005 from rfl, show g6cell.y = 1000 from rfl,
      show g6blob.x = 1000 from rfl, show g6blob.y = 1000 from rfl]
    rw [getDistance_horiz]
    norm_num
  · intro hall
    have h2 := hall (-1, 0) (by norm_num) (by norm_num) (by norm_num) (by norm_num)
    have hy : (Ent.move_rand g6blob (-1) 0).y = 1000 := by
      rw [move_rand_y, zero_mul, add_zero]
      rw [show g6blob.y = 1000 from rfl]
      rw [min_eq_left (by norm_num [PLATFORM_HEIGHT]), max_eq_right (by norm_num)]
    have hcond : ¬ getDistance ((g6cell.x, g6cell.y))
        (((Ent.move_rand g6blob (-1) 0).x, (Ent.move_rand g6blob (-1) 0).y)) ≤
        (Ent.move_rand g6blob (-1) 0).mass / 2 * 0.75 := by
      rw [g6_move_neg_x, hy]
      rw [show g6cell.x = 1005 from rfl, show g6cell.y = 1000 from rfl]
      rw [getDistance_horiz]
      rw [show (Ent.move_rand g6blob (-1) 0).mass = 20 from rfl]
      rw [show (1005:ℝ) - (1000 - 10 / (20:ℝ) ^ (0.3:ℝ)) =
        5 + 10 / (20:ℝ) ^ (0.3:ℝ) by ring]
      rw [abs_of_pos (by have := sp_pos; linarith)]
      have := sp_gt
      intro hle
      norm_num at hle
      linarith
    have hcd := collisionDetection_singleton_neg _ _ hcond
    rw [update_no_bots g6 rfl] at h2
    have h3 : (Ent.update_size
        (Ent.collisionDetection (Ent.move_rand g6.blob (-1, 0).1 (-1, 0).2)
          g6.cells).1).target_mass = 23.5 := h2.2
    rw [show g6.blob = g6blob from rfl, show g6.cells = [g6cell] from rfl] at h3
    rw [show ((-1, 0) : ℝ × ℝ).1 = -1 from rfl,
      show ((-1, 0) : ℝ × ℝ).2 = 0 from rfl] at h3
    rw [hcd, update_size_target] at h3
    rw [show (Ent.move_rand g6blob (-1) 0).target_mass = 20 from rfl] at h3
    norm_num at h3

/-- World for the C8 counterexample: the primary at the origin, no bots
and no cells. -/
def g8 : GameState := g7

/-- Counterexample for C8: the direction (1000, 0), far outside any sane
range and outside the declared action space, is accepted by the step
transition without any error and the world state changes: the blob jumps
from x = 0 to the clamped boundary x = 2500.  No input validation exists
anywhere on the step path. -/
theorem step_invalid_input_counterexample :
    ¬ (-1 ≤ (1000:ℝ) ∧ (1000:ℝ) ≤ 1) ∧
    g8.blob.x = 0 ∧
    (stepState g8 1000 0 (0, 0) (fun _ => (0, 0))).blob.x = 2500 := by
  refine ⟨by norm_num, rfl, ?_⟩
  have hmx : (g8.blob.move_dir 1000 0).x = 2500 := by
    rw [move_dir_x]
    rw [show g8.blob.x = 0 from rfl,
      show g8.blob.get_speed = 10 / (20:ℝ) ^ (0.3:ℝ) from rfl]
    rw [min_eq_right (by have := sp_gt; norm_num [PLATFORM_WIDTH]; linarith)]
    rw [max_eq_right (by norm_num [PLATFORM_WIDTH])]
    norm_num [PLATFORM_WIDTH]
  unfold stepState
  rw [stepRemovals_blob, update_blob_x]
  rw [show ({ g8 with blob := g8.blob.move_dir 1000 0 } : GameState).blob =
    g8.blob.move_dir 1000 0 from rfl]
  rw [show ((0, 0) : ℝ × ℝ).1 = 0 from rfl, zero_mul, add_zero, hmx]
  rw [min_eq_left (by norm_num [PLATFORM_WIDTH]), max_eq_right (by norm_num)]

/-- Claim C8 (amended): the step transition performs no validation of the
direction components and never fails; any real direction is used
directly, and the primary position after the step is still clamped
inside the platform bounds. -/
theorem step_no_validation_clamped (s : GameState) (dx dy : ℝ) (br : ℝ × ℝ)
    (d : ℕ → ℝ × ℝ) :
    0 ≤ (stepState s dx dy br d).blob.x ∧
    (stepState s dx dy br d).blob.x ≤ PLATFORM_WIDTH ∧
    0 ≤ (stepState s dx dy br d).blob.y ∧
    (stepState s dx dy br d).blob.y ≤ PLATFORM_HEIGHT := by
  unfold stepState
  rw [stepRemovals_blob, update_blob_x, update_blob_y]
  exact ⟨clamp_nonneg _ _, clamp_le _ _ platform_w_nonneg,
    clamp_nonneg _ _, clamp_le _ _ platform_h_nonneg⟩

/-- Claim C10: check_player_collisions leaves the world state unchanged,
because is_collision contains no return statement and returns None for
every pair of players, so resolve_collision is never invoked from it. -/
theorem check_player_collisions_noop :
    (∀ s : GameState, s.check_player_collisions = s) ∧
    (∀ p1 p2 : Ent, GameState.is_collision p1 p2 = none) :=
  ⟨check_player_collisions_eq, fun _ _ => rfl⟩

end

end Agar
